import Mathlib

/-!
Verification of the pyStateMachine repository (StateMachineLib.py,
nonZeroSpeedSM.py, nzsfRecovery.py) against its natural-language
specification.

The development has three layers:

1. `PyModel` / `NZSF`: an expression-level shallow embedding of the Python
   values that flow through the recovery machine's transition guards
   (`epics.PV` handles, numbers, strings, booleans) and of the concrete
   guard lambdas of nzsfRecovery.py, with Python's short-circuit `and`/`or`
   and with the runtime errors (`TypeError`, `AttributeError`) that some of
   those lambdas can raise, modelled in `Except`.

2. `SMLib`: the engine of StateMachineLib.py — `State.init_transitions`
   (an ordered dict keyed by target name), `State.run_transitions`
   (the polling/timeout loop, with the wall clock and the asynchronously
   changing hardware inputs supplied as oracles indexed by poll number,
   and the loop bounded by explicit fuel), `StateMachine.add_state` and
   `StateMachine.run`.  At this layer guards are total boolean predicates
   on the input snapshot; the exceptions concrete guards can raise are the
   subject of the expression-level layer.

3. `SM2`: the engine of nonZeroSpeedSM.py, whose per-state handler
   functions return the next state name, and `SpecModel`: the run-loop
   of spec section 4.3 transcribed from the spec's own wording, used to
   compare the spec's previous-state update with the source's.
-/

namespace PyModel

/-- Python runtime errors that the embedded guard expressions can raise. -/
inductive PyErr
  | typeError
  | attributeError
deriving DecidableEq

/-- Values flowing through the recovery machine's guard lambdas: an
`epics.PV` handle whose current reading is a rational, a plain number,
a string, or a boolean. -/
inductive PyVal
  | pv (v : ℚ)
  | num (v : ℚ)
  | str (s : String)
  | pybool (b : Bool)
deriving DecidableEq

/-- Python truthiness of the embedded values: objects are truthy, numbers
are truthy iff nonzero, strings iff nonempty. -/
def truthy : PyVal → Bool
  | .pv _ => true
  | .num v => decide (v ≠ 0)
  | .str s => decide (s ≠ "")
  | .pybool b => b

/-- Attribute access `x.value`: defined on a PV handle (it reads the
current value), an `AttributeError` on every other value. -/
def dotValue : PyVal → Except PyErr PyVal
  | .pv v => .ok (.num v)
  | _ => .error .attributeError

/-- Python `abs(x)`: defined on numbers and booleans, a `TypeError` on a
PV handle or a string (`epics.PV` does not implement `__abs__`). -/
def pyAbs : PyVal → Except PyErr PyVal
  | .num v => .ok (.num |v|)
  | .pybool b => .ok (.num (if b then 1 else 0))
  | _ => .error .typeError

/-- Python `not x`: total, returns a boolean. -/
def pyNot (v : PyVal) : PyVal := .pybool (!truthy v)

/-- Python `x > y` on numbers; other operand combinations used nowhere in
the guards are a `TypeError`. -/
def pyGt : PyVal → PyVal → Except PyErr PyVal
  | .num a, .num b => .ok (.pybool (decide (a > b)))
  | _, _ => .error .typeError

/-- Python `x < y` on numbers. -/
def pyLt : PyVal → PyVal → Except PyErr PyVal
  | .num a, .num b => .ok (.pybool (decide (a < b)))
  | _, _ => .error .typeError

/-- Python `x == y`: total (objects of different kinds compare unequal,
distinct PV handles are modelled by their readings). -/
def pyEqB : PyVal → PyVal → Bool
  | .num a, .num b => decide (a = b)
  | .str a, .str b => decide (a = b)
  | .pybool a, .pybool b => decide (a = b)
  | .pv a, .pv b => decide (a = b)
  | _, _ => false

/-- Python short-circuit `and`: evaluate the left operand; if it is falsy
return it, otherwise evaluate and return the right operand. -/
def pyAnd (x : Except PyErr PyVal) (y : Unit → Except PyErr PyVal) :
    Except PyErr PyVal := do
  let a ← x
  if truthy a then y () else pure a

/-- Python short-circuit `or`: evaluate the left operand; if it is truthy
return it, otherwise evaluate and return the right operand. -/
def pyOr (x : Except PyErr PyVal) (y : Unit → Except PyErr PyVal) :
    Except PyErr PyVal := do
  let a ← x
  if truthy a then pure a else y ()

/-- Python `str.upper()` as used for state-name keys, written over the
character list so that concrete evaluations reduce in the kernel
(core `String.toUpper` recurses on byte positions and does not). -/
def pyUpper (s : String) : String := String.mk (s.data.map Char.toUpper)

/-- A snapshot of the `inputs` dictionary: point name to current value. -/
abbrev Inputs := String → PyVal

/-- Input point names of nzsfRecovery.py (nzsfRecovery.py lines 22-34). -/
def nmNzsAz : String := "nzsAz"

def nmNzsEl : String := "nzsEl"

def nmVoltAz : String := "voltAz"

def nmVoltEl : String := "voltEl"

def nmMcsFollow : String := "mcsFollow"

def nmAzDriveCond : String := "azDriveCond"

def nmElDriveCond : String := "elDriveCond"

def nmAzPosErr : String := "azPosErr"

def nmElPosErr : String := "elPosErr"

def nmPrevState : String := "prevState"

end PyModel

namespace NZSF

open PyModel

/-- Guard of start_trans[0] (nzsfRecovery.py lines 75-77), transition to
no_fault: `not(i[n[0]].value) and not(i[n[1]].value)` with
n = [nzsAz, nzsEl]. -/
def start_g_no_fault (i : Inputs) : Except PyErr PyVal :=
  pyAnd (do let a ← dotValue (i nmNzsAz); pure (pyNot a))
    (fun _ => do let b ← dotValue (i nmNzsEl); pure (pyNot b))

/-- Guard of start_trans[1] (lines 78-79), transition to follow_off:
`i[n[0]].value` with n = [mcsFollow]. -/
def start_g_follow_off (i : Inputs) : Except PyErr PyVal :=
  dotValue (i nmMcsFollow)

/-- Guard of start_trans[2] (lines 81-83), transition to voltage_zero:
`(abs(i[n[0]].value) > 0.5) or (abs(i[n[1]]).value > 0.5)` with
n = [voltAz, voltEl].  In the source `abs` is applied to `i[n[1]]`, the PV
object itself, and only then `.value` is read. -/
def start_g_voltage_zero (i : Inputs) : Except PyErr PyVal :=
  pyOr (do let a ← dotValue (i nmVoltAz); let b ← pyAbs a; pyGt b (PyVal.num (mkRat 1 2)))
    (fun _ => do let c ← pyAbs (i nmVoltEl); let d ← dotValue c; pyGt d (PyVal.num (mkRat 1 2)))

/-- Guard of start_trans[3] (lines 85-86), transition to clear_nzsf:
`lambda n,i: True`. -/
def start_g_clear_nzsf (_i : Inputs) : Except PyErr PyVal :=
  .ok (PyVal.pybool true)

/-- Guard of follow_off_trans[0] (lines 101-102), transition to rec_error:
`i[n[0]].value` with n = [mcsFollow]. -/
def follow_off_g_rec_error (i : Inputs) : Except PyErr PyVal :=
  dotValue (i nmMcsFollow)

/-- Guard of follow_off_trans[1] (lines 104-105), transition to follow_on:
`i[n[0]] == 'follow_on'` with n = [prevState] (no `.value` read: the
prevState entry is a plain string). -/
def follow_off_g_follow_on (i : Inputs) : Except PyErr PyVal :=
  .ok (PyVal.pybool (pyEqB (i nmPrevState) (PyVal.str ("follow_on"))))

/-- Guard of follow_off_trans[2] (lines 107-109), transition to
voltage_zero: textually identical to the start_trans voltage_zero guard,
including the misplaced parenthesis on the voltEl side. -/
def follow_off_g_voltage_zero (i : Inputs) : Except PyErr PyVal :=
  pyOr (do let a ← dotValue (i nmVoltAz); let b ← pyAbs a; pyGt b (PyVal.num (mkRat 1 2)))
    (fun _ => do let c ← pyAbs (i nmVoltEl); let d ← dotValue c; pyGt d (PyVal.num (mkRat 1 2)))

/-- Guard of follow_off_trans[3] (lines 111-112): `lambda n,i: True`. -/
def follow_off_g_clear_nzsf (_i : Inputs) : Except PyErr PyVal :=
  .ok (PyVal.pybool true)

/-- Guard of voltage_zero_trans[0] (lines 124-126), transition to
rec_error: `(abs(i[n[0]].value) > 0.1) or (abs(i[n[1]]).value > 0.1)`
with n = [voltAz, voltEl], again with `abs` applied to the voltEl PV
object itself. -/
def voltage_zero_g_rec_error (i : Inputs) : Except PyErr PyVal :=
  pyOr (do let a ← dotValue (i nmVoltAz); let b ← pyAbs a; pyGt b (PyVal.num (mkRat 1 10)))
    (fun _ => do let c ← pyAbs (i nmVoltEl); let d ← dotValue c; pyGt d (PyVal.num (mkRat 1 10)))

/-- Guard of voltage_zero_trans[1] (lines 128-129): `lambda n,i: True`. -/
def voltage_zero_g_clear_nzsf (_i : Inputs) : Except PyErr PyVal :=
  .ok (PyVal.pybool true)

/-- Guard of follow_on_trans[1] (nzsfRecovery.py lines 239-242), transition
to rec_success, with n = [voltAz, azPosErr, voltEl, elPosErr]:
`(((abs(i[n[0]].value) > 0.1) and (abs(i[n[2]]).value > 0.01))
   or ((abs(i[n[0]].value) > 0.1) and (abs(i[n[2]]).value > 0.01)))
  or ((abs(i[n[2]]).value < 0.01) and (abs(i[n[3]].value) < 0.01))`.
The first two disjuncts are verbatim duplicates, `n[1]` (azPosErr) is
never read, and `abs` is applied to the voltEl PV object itself in all
three disjuncts. -/
def follow_on_g_rec_success (i : Inputs) : Except PyErr PyVal :=
  pyOr
    (pyOr
      (pyAnd (do let a ← dotValue (i nmVoltAz); let b ← pyAbs a; pyGt b (PyVal.num (mkRat 1 10)))
        (fun _ => do let c ← pyAbs (i nmVoltEl); let d ← dotValue c; pyGt d (PyVal.num (mkRat 1 100))))
      (fun _ =>
        pyAnd (do let a ← dotValue (i nmVoltAz); let b ← pyAbs a; pyGt b (PyVal.num (mkRat 1 10)))
          (fun _ => do let c ← pyAbs (i nmVoltEl); let d ← dotValue c; pyGt d (PyVal.num (mkRat 1 100)))))
    (fun _ =>
      pyAnd (do let c ← pyAbs (i nmVoltEl); let d ← dotValue c; pyLt d (PyVal.num (mkRat 1 100)))
        (fun _ => do let a ← dotValue (i nmElPosErr); let b ← pyAbs a; pyLt b (PyVal.num (mkRat 1 100))))

/-- Guard of follow_on_trans[2] (lines 244-245), the second rec_error
entry: `i[n[0]].value == 'follow_off'` with n = [prevState]; the
prevState entry is a plain string, so the `.value` read raises an
`AttributeError`. -/
def follow_on_g_rec_error_prev (i : Inputs) : Except PyErr PyVal := do
  let v ← dotValue (i nmPrevState)
  pure (PyVal.pybool (pyEqB v (PyVal.str ("follow_off"))))

/-- Follow-on tracking check of nonZeroSpeedSM.py lines 315-318:
`((abs(inp['voltAz'].value) < 0.1) and (abs(inp['azPosErr'].value) > 0.01))
  or ((abs(inp['voltEl'].value) < 0.1) and (abs(inp['elPosErr'].value) > 0.01))`,
written over the already-read numeric values. -/
def follow_on_check_sm2 (voltAz azPosErr voltEl elPosErr : ℚ) : Bool :=
  (decide (|voltAz| < mkRat 1 10) && decide (|azPosErr| > mkRat 1 100)) ||
    (decide (|voltEl| < mkRat 1 10) && decide (|elPosErr| > mkRat 1 100))

end NZSF

namespace SMLib

open PyModel

/-- Error-timeout budget of StateMachineLib.py line 14: `ERROR_TIME = 1.5*60`
seconds, i.e. 90; written as a normalised rational so that concrete
comparisons against it reduce in the kernel. -/
def ERROR_TIME : ℚ := mkRat 90 1

/-- One entry of a state's transition array (StateMachineLib.py lines
30-43 and 62-68): target state name, names of the inputs the guard reads,
the guard itself (the truth value of the condition lambda on the current
input snapshot; the exceptions the concrete recovery guards can raise are
modelled at the expression level in namespace NZSF), the error-path flag
and the message. -/
structure Transition (Env : Type) where
  target : String
  inp : List String
  cond : Env → Bool
  error : Bool
  msg : String

/-- Ordered-dict insertion keyed by target name, as performed by
`State.init_transitions` (line 65, `self.transitions[st[0]] = ...`):
assigning to an existing key overwrites its record in place, a new key is
appended. -/
def odInsert {Env : Type} (d : List (Transition Env)) (t : Transition Env) :
    List (Transition Env) :=
  if d.any (fun u => u.target == t.target) then
    d.map (fun u => if u.target == t.target then t else u)
  else d ++ [t]

/-- A State object (StateMachineLib.py lines 53-60). -/
structure StateL (Env : Type) where
  name : String
  handlerName : String
  tarray : List (Transition Env)
  startState : Bool
  endState : Bool

/-- The transitions ordered dict after `init_transitions` (lines 62-68):
empty for an end state, otherwise the tarray entries inserted in order
with later duplicates of a target key overwriting earlier ones in place. -/
def StateL.transitions {Env : Type} (s : StateL Env) : List (Transition Env) :=
  if s.endState then [] else s.tarray.foldl odInsert []

/-- Outcomes of the polling loop of `run_transitions`: `unboundLocal` is
the UnboundLocalError raised at line 86 when the very first scan has
assigned no candidate, `fuelOut` means the loop was still polling after
the given number of iterations. -/
inductive RTError
  | unboundLocal
  | fuelOut
deriving DecidableEq

/-- Polling loop of `State.run_transitions` (lines 75-91).  `env k` is the
input snapshot the guards see at scan `k` (the underlying PVs update
asynchronously) and `elapsed k` is the wall-clock time in seconds since
`startTime` as measured at line 85, after scan `k`.  Each iteration scans
the table in order for the first transition whose guard is true
(lines 81-84); a scan that finds none leaves `nextState` unchanged, which
on the first iteration means it is unbound.  The loop exits accepting the
candidate iff the candidate is not an error-path transition or the
elapsed time strictly exceeds `ERROR_TIME` (line 86). -/
def run_transitionsAux {Env : Type} (tt : List (Transition Env))
    (env : Nat → Env) (elapsed : Nat → ℚ) :
    Nat → Nat → Option (Transition Env) → Except RTError String
  | 0, _, _ => .error .fuelOut
  | fuel + 1, k, prev =>
    let cand : Option (Transition Env) :=
      match tt.find? (fun t => t.cond (env k)) with
      | some t => some t
      | none => prev
    match cand with
    | none => .error .unboundLocal
    | some t =>
      if !t.error || decide (elapsed k > ERROR_TIME) then .ok t.target
      else run_transitionsAux tt env elapsed fuel (k + 1) (some t)

/-- Entry point of the polling loop: scanning starts at poll 0 with
`nextState` unbound. -/
def run_transitions {Env : Type} (tt : List (Transition Env))
    (env : Nat → Env) (elapsed : Nat → ℚ) (fuel : Nat) :
    Except RTError String :=
  run_transitionsAux tt env elapsed fuel 0 none

/-- Fatal outcomes of `add_state` and `run`: the three InitializationError
messages (each followed by `exit(0)`, lines 107-110 and 117-123), a
KeyError on a missing state lookup, the propagated UnboundLocalError of
`run_transitions`, and fuel exhaustion of the polling loop or of the run
loop. -/
inductive SMError
  | moreThanOneStart
  | noStart
  | noEnd
  | keyError
  | unbound
  | pollFuelOut
  | visitFuelOut
deriving DecidableEq

/-- A StateMachine object (lines 94-98): the states dict keyed by
uppercased name, the start state name, the end state names, and the
previous-state memory. -/
structure StateMachine (Env : Type) where
  states : List (String × StateL Env)
  startState : Option String
  endStates : List String
  prevState : String

/-- The machine as built by `StateMachine.__init__`. -/
def emptySM {Env : Type} : StateMachine Env :=
  { states := [], startState := none, endStates := [], prevState := "" }

/-- Python dict insertion keyed by string. -/
def dictInsert {α : Type} (d : List (String × α)) (k : String) (v : α) :
    List (String × α) :=
  if d.any (fun p => p.1 == k) then
    d.map (fun p => if p.1 == k then (k, v) else p)
  else d ++ [(k, v)]

/-- Python dict lookup keyed by string. -/
def lookupByKey {α : Type} (d : List (String × α)) (k : String) : Option α :=
  match d.find? (fun p => p.1 == k) with
  | some p => some p.2
  | none => none

/-- `StateMachine.add_state` (lines 100-113): insert the state under its
uppercased name, then, if it is flagged as a start state while a start
state is already set, print the InitializationError and `exit(0)`
(modelled as the error outcome); otherwise record the start name.
Finally an end-state name is appended to `endStates`. -/
def add_state {Env : Type} (m : StateMachine Env) (s : StateL Env) :
    Except SMError (StateMachine Env) :=
  let name := (pyUpper s.name)
  let m1 := { m with states := dictInsert m.states name s }
  if s.startState then
    if m1.startState.isSome then .error .moreThanOneStart
    else
      let m2 := { m1 with startState := some name }
      .ok (if s.endState then { m2 with endStates := m2.endStates ++ [name] } else m2)
  else
    .ok (if s.endState then { m1 with endStates := m1.endStates ++ [name] } else m1)

/-- One recorded transition-table evaluation of the run loop: the dict key
of the state whose table was evaluated, the raw name by which the run
reached that state (`self.prevState` at that moment: the start name for
the first visit, the transition's raw target string afterwards), and the
value the context's synthetic prevState input held while the table was
being evaluated. -/
structure EvalRec where
  key : String
  raw : String
  ctxPrev : PyVal
deriving DecidableEq

/-- Overwrite of the prevState entry of the shared input dict
(line 129, `records['Input']['prevState'] = self.prevState`). -/
def withPrev (e : Inputs) (p : String) : Inputs :=
  fun nm => if nm = nmPrevState then PyVal.str p else e nm

/-- Result of the run loop: the evaluations performed in order, the list
of handler invocations performed (empty: both `run_handler` call sites of
the source, lines 127 and 134, are commented out), and the outcome. -/
abbrev RunOut := List EvalRec × List String × Except SMError String

/-- Input snapshots a visit's guards see: untouched caller snapshots
while the run has not yet written the prevState entry, and with the
prevState entry overwritten afterwards. -/
def effInputs (env : Nat → Nat → Inputs) (v : Nat) :
    Option String → Nat → Inputs
  | some p, k => withPrev (env v k) p
  | none, k => env v k

/-- Value of the context's prevState entry at poll 0 of a visit: the
written value once the run has written one, otherwise the caller-supplied
snapshot entry. -/
def writtenPrev (env : Nat → Nat → Inputs) (v : Nat) :
    Option String → PyVal
  | some p => PyVal.str p
  | none => env v 0 nmPrevState

/-- Loop body of `StateMachine.run` (lines 126-137).  `env v k` is the
hardware input snapshot at poll `k` of visit `v` and `elapsed v k` the
corresponding polling clock; visits after the first see the prevState
entry overwritten by the run (line 129).  Each iteration evaluates the
current state's transition table (line 128; note that the
`currState.run_handler(records)` call at line 127 is commented out in the
source, so no handler is invoked), writes the old `self.prevState` into
the context, advances `self.prevState` to the raw new state name, looks
the new state up under its uppercased name (line 131, a KeyError if
absent), and stops if that name is in `endStates` (line 132; the terminal
`run_handler` call at line 134 is likewise commented out). -/
def runAux (m : StateMachine Inputs) (env : Nat → Nat → Inputs)
    (elapsed : Nat → Nat → ℚ) (pollFuel : Nat) :
    Nat → Nat → StateL Inputs → String → String → Option String → RunOut
  | 0, _, _, _, _, _ => ([], [], .error .visitFuelOut)
  | fuel + 1, v, curr, key, selfPrev, written =>
    let tail : RunOut :=
      match run_transitions curr.transitions (effInputs env v written)
          (elapsed v) pollFuel with
      | .error .unboundLocal => ([], [], .error .unbound)
      | .error .fuelOut => ([], [], .error .pollFuelOut)
      | .ok newState =>
        match lookupByKey m.states (pyUpper newState) with
        | none => ([], [], .error .keyError)
        | some next =>
          if m.endStates.contains (pyUpper newState) then
            ([], [], .ok (pyUpper newState))
          else
            runAux m env elapsed pollFuel fuel (v + 1) next (pyUpper newState)
              newState (some selfPrev)
    (⟨key, selfPrev, writtenPrev env v written⟩ :: tail.1, tail.2.1, tail.2.2)

/-- `StateMachine.run` (lines 115-137): the two InitializationError checks
(lines 117-123, each aborting the process), the start-state lookup
(line 124), `self.prevState = self.startState` (line 125), then the loop. -/
def run (m : StateMachine Inputs) (env : Nat → Nat → Inputs)
    (elapsed : Nat → Nat → ℚ) (pollFuel fuel : Nat) : RunOut :=
  match m.startState with
  | none => ([], [], .error .noStart)
  | some sk =>
    if m.endStates.isEmpty then ([], [], .error .noEnd)
    else
      match lookupByKey m.states sk with
      | none => ([], [], .error .keyError)
      | some st => runAux m env elapsed pollFuel fuel 0 st sk sk none

end SMLib

namespace SM2

open PyModel

/-- Execution context of nonZeroSpeedSM.py: an abstract payload for the
hardware records plus the synthetic prevState entry of the input dict. -/
structure Ctx (α : Type) where
  data : α
  prevState : String

/-- A registered handler of nonZeroSpeedSM.py: the per-state functions
return `(newState, records)`, the terminal action functions return
`None`; unpacking the latter as a pair raises a TypeError. -/
abbrev Handler (α : Type) := Ctx α → Option String × Ctx α

/-- The StateMachine of nonZeroSpeedSM.py lines 83-97: the handlers dict
keyed by uppercased name, the start state (stored uppercased by
`set_start`), and the end state names. -/
structure Machine (α : Type) where
  handlers : List (String × Handler α)
  startState : Option String
  endStates : List String

/-- Fatal outcomes of the run loop of nonZeroSpeedSM.py lines 99-120. -/
inductive R2Err
  | noStart
  | noEnd
  | keyError
  | typeError
  | fuelOut
deriving DecidableEq

/-- Loop body of `StateMachine.run` (nonZeroSpeedSM.py lines 110-120):
invoke the current handler and unpack its result (line 111; a terminal
action invoked here returns None and the unpacking raises TypeError),
write the old `self.prevState` into the records (line 112), advance
`self.prevState`, look up the next handler under the uppercased name
(line 114), and if that name is an end state invoke the looked-up handler
once more (line 117) and stop.  The returned list records the dict keys
of the handlers invoked, in order. -/
def runAux {α : Type} (m : Machine α) :
    Nat → String → Handler α → Ctx α → String →
      List String × Except R2Err String
  | 0, _, _, _, _ => ([], .error .fuelOut)
  | fuel + 1, hKey, h, ctx, selfPrev =>
    match h ctx with
    | (none, _) => ([hKey], .error .typeError)
    | (some newState, ctx1) =>
      let ctx2 : Ctx α := { ctx1 with prevState := selfPrev }
      match SMLib.lookupByKey m.handlers (pyUpper newState) with
      | none => ([hKey], .error .keyError)
      | some h2 =>
        if m.endStates.contains (pyUpper newState) then
          ([hKey, (pyUpper newState)], .ok (pyUpper newState))
        else
          let t := runAux m fuel (pyUpper newState) h2 ctx2 newState
          (hKey :: t.1, t.2)

/-- `StateMachine.run` of nonZeroSpeedSM.py (lines 99-120): the two
InitializationError checks followed by the loop, starting from the start
state's handler with `self.prevState = self.startState`. -/
def run {α : Type} (m : Machine α) (ctx : Ctx α) (fuel : Nat) :
    List String × Except R2Err String :=
  match m.startState with
  | none => ([], .error .noStart)
  | some sk =>
    if m.endStates.isEmpty then ([], .error .noEnd)
    else
      match SMLib.lookupByKey m.handlers sk with
      | none => ([], .error .keyError)
      | some h => runAux m fuel sk h ctx sk

end SM2

namespace SpecModel

/-- Modelled from the spec: the run loop of spec section 4.3 with the
per-state transition evaluation abstracted into a next-state map, keeping
exactly the bookkeeping steps the spec prescribes, in the spec's order:
"2b. If current is terminal, stop"; "2c. evaluate current's table to get
next"; "2d. Write previousState into the context's synthetic prevState
input"; "2e. Set previousState = current; set current = next".  This
definition follows the spec's wording (including step 2e's
`previousState = current`), not the source, and exists to compare the
spec's quoted update with the source's `self.prevState = newState`
(StateMachineLib.py line 130). -/
structure SpecMachine where
  nextOf : String → String
  startState : String
  endStates : List String

/-- One trace entry per evaluated state: the state name and the value the
context's prevState input held while its table was evaluated (`none`
means the caller-supplied initial value was still in place). -/
def specRunAux (m : SpecMachine) :
    Nat → String → String → Option String → List (String × Option String)
  | 0, _, _, _ => []
  | fuel + 1, current, previousState, written =>
    if m.endStates.contains current then []
    else
      let next := m.nextOf current
      (current, written) ::
        specRunAux m fuel next current (some previousState)

/-- Entry point per spec section 4.3 step 1: `current = startState`,
`previousState = startState`, the context's prevState entry still holding
the caller-supplied value. -/
def specRun (m : SpecMachine) (fuel : Nat) : List (String × Option String) :=
  specRunAux m fuel m.startState m.startState none

end SpecModel

/-- Input snapshot in which every point reads 0 (all PV handles present,
all values zero); in particular `abs(voltAz.value) = 0` is not above any
threshold, so the voltage guards reach their voltEl disjunct. -/
def envAllZero : PyModel.Inputs := fun _ => PyModel.PyVal.pv 0

/-- Input snapshot for the follow_on scenario: the Az voltage reads 0 and
the Az position error reads 0.05 (the Az pair signals "follow enabled but
not tracking"), while the El voltage reads 0.2 with zero El position
error. -/
def envFollowOn : PyModel.Inputs := fun nm =>
  if nm = PyModel.nmAzPosErr then PyModel.PyVal.pv (mkRat 5 100)
  else if nm = PyModel.nmVoltEl then PyModel.PyVal.pv (mkRat 2 10)
  else PyModel.PyVal.pv 0

/-- Transition table whose single guard is false on every scan: the first
scan of `run_transitions` then assigns no candidate. -/
def neverTrueTable : List (SMLib.Transition PyModel.Inputs) :=
  [{ target := "x", inp := [""], cond := fun _ => false, error := false, msg := "" }]

/-- C3: the claim states that a scan on which no guard returns true makes
the evaluation loop re-scan without failing or throwing, and that
evaluation is total whenever some guard eventually becomes true.  The
code disagrees: on a first scan with no true guard, line 86 of
StateMachineLib.py reads the never-assigned local `nextState` and raises
UnboundLocalError instead of re-scanning; here the embedded loop on a
table whose only guard is constantly false reports exactly that unbound
read, with fuel to spare. -/
theorem C3_first_scan_unbound :
    SMLib.run_transitions neverTrueTable (fun _ => envAllZero) (fun _ => 0) 5 =
      .error SMLib.RTError.unboundLocal := rfl

/-- C4: the claim states that every guard of the cited recovery tables is
total and never throws.  The code disagrees: in the voltage guards of
start_trans, follow_off_trans and voltage_zero_trans, `abs` is applied to
the voltEl PV object itself (`abs(i[n[1]]).value`, a misplaced
parenthesis), so whenever the voltAz disjunct is false — here all points
read 0 — the guard raises TypeError. -/
theorem C4_voltage_guards_throw :
    NZSF.start_g_voltage_zero envAllZero = .error PyModel.PyErr.typeError ∧
    NZSF.follow_off_g_voltage_zero envAllZero = .error PyModel.PyErr.typeError ∧
    NZSF.voltage_zero_g_rec_error envAllZero = .error PyModel.PyErr.typeError :=
  ⟨rfl, rfl, rfl⟩

/-- C8: the claim states that the follow_on tracking check evaluates the
voltAz/azPosErr and voltEl/elPosErr pairs symmetrically.  The check of
nonZeroSpeedSM.py lines 315-318 does (first conjunct: it is invariant
under swapping the axis pairs, and it fires on the Az pair of the
concrete snapshot), but the corresponding rec_success guard of
nzsfRecovery.py lines 239-242 does not: on the same snapshot, where the
intended semantics detects "follow enabled but not tracking" through the
Az pair, the table guard never reads azPosErr — its second disjunct is a
verbatim duplicate of the first — and raises TypeError by applying `abs`
to the voltEl PV object. -/
theorem C8_follow_on_pairs :
    (∀ a b c d : ℚ,
      NZSF.follow_on_check_sm2 a b c d = NZSF.follow_on_check_sm2 c d a b) ∧
    NZSF.follow_on_check_sm2 0 (mkRat 5 100) (mkRat 2 10) 0 = true ∧
    NZSF.follow_on_g_rec_success envFollowOn = .error PyModel.PyErr.typeError := by
  refine ⟨fun a b c d => ?_, by decide, rfl⟩
  simp [NZSF.follow_on_check_sm2, Bool.or_comm]

namespace SMLib

/-- While every scan finds the same error-path candidate and the measured
elapsed time stays within `ERROR_TIME`, the polling loop keeps looping:
after `fuel` further iterations it has accepted nothing. -/
theorem run_transitionsAux_poll_low {Env : Type} {tt : List (Transition Env)}
    {c : Transition Env} {env : Nat → Env} {elapsed : Nat → ℚ}
    (hscan : ∀ k, tt.find? (fun t => t.cond (env k)) = some c)
    (herr : c.error = true) :
    ∀ (fuel j : Nat) (prev : Option (Transition Env)),
      (∀ i, i < fuel → elapsed (j + i) ≤ ERROR_TIME) →
      run_transitionsAux tt env elapsed fuel j prev = .error .fuelOut := by
  intro fuel
  induction fuel with
  | zero => intro j prev _; rfl
  | succ n ih =>
    intro j prev hlow
    have h0 : elapsed j ≤ ERROR_TIME := by
      have := hlow 0 (Nat.succ_pos n)
      simpa using this
    simp only [run_transitionsAux, hscan j]
    have hcond : (!c.error || decide (elapsed j > ERROR_TIME)) = false := by
      simp [herr, not_lt.mpr h0]
    rw [hcond]
    simp only [Bool.false_eq_true, if_false]
    exact ih (j + 1) (some c) (fun i hi => by
      have := hlow (i + 1) (Nat.succ_lt_succ hi)
      rwa [show j + 1 + i = j + (i + 1) by omega])

/-- If every scan finds the same error-path candidate, the elapsed time is
within `ERROR_TIME` for the first `fuel` polls and strictly above it at
poll `j + fuel`, the loop accepts the candidate exactly at that poll. -/
theorem run_transitionsAux_fires {Env : Type} {tt : List (Transition Env)}
    {c : Transition Env} {env : Nat → Env} {elapsed : Nat → ℚ}
    (hscan : ∀ k, tt.find? (fun t => t.cond (env k)) = some c) :
    ∀ (fuel j : Nat) (prev : Option (Transition Env)),
      (∀ i, i < fuel → elapsed (j + i) ≤ ERROR_TIME) →
      elapsed (j + fuel) > ERROR_TIME →
      run_transitionsAux tt env elapsed (fuel + 1) j prev = .ok c.target := by
  intro fuel
  induction fuel with
  | zero =>
    intro j prev _ hhi
    simp only [run_transitionsAux, hscan j]
    have : (!c.error || decide (elapsed j > ERROR_TIME)) = true := by
      simp only [Nat.add_zero] at hhi
      simp [hhi]
    rw [this]
    simp
  | succ n ih =>
    intro j prev hlow hhi
    simp only [run_transitionsAux, hscan j]
    by_cases hb : (!c.error || decide (elapsed j > ERROR_TIME)) = true
    · rw [hb]
      simp
    · rw [Bool.not_eq_true] at hb
      rw [hb]
      simp only [Bool.false_eq_true, if_false]
      refine ih (j + 1) (some c) (fun i hi => ?_) ?_
      · have := hlow (i + 1) (Nat.succ_lt_succ hi)
        rwa [show j + 1 + i = j + (i + 1) by omega]
      · rwa [show j + 1 + n = j + (n + 1) by omega]

end SMLib

/-- C2: candidate acceptance in `run_transitions`.  First conjunct: in a
state where every scan finds the same true error-path candidate (no
non-error-path guard is ever true), with `k0` the first poll whose
measured elapsed time strictly exceeds the 90-second `ERROR_TIME`, the
loop is still polling after `k0` iterations (it must not fire at or
before the timeout) and accepts the error-path target exactly at poll
`k0`, the first poll after the timeout.  Second conjunct: the candidate
found by a scan is accepted at that very poll exactly when it is not an
error-path transition or the elapsed time measured at that poll strictly
exceeds `ERROR_TIME`. -/
theorem C2_error_path_timeout {Env : Type} (tt : List (SMLib.Transition Env))
    (c : SMLib.Transition Env) (env : Nat → Env) (elapsed : Nat → ℚ) (k0 : Nat)
    (hscan : ∀ k, tt.find? (fun t => t.cond (env k)) = some c)
    (_herr : c.error = true)
    (hlow : ∀ k, k < k0 → elapsed k ≤ SMLib.ERROR_TIME)
    (hhi : elapsed k0 > SMLib.ERROR_TIME) :
    (SMLib.run_transitions tt env elapsed k0 = .error SMLib.RTError.fuelOut ∧
      SMLib.run_transitions tt env elapsed (k0 + 1) = .ok c.target) ∧
    ∀ (env2 : Nat → Env) (el2 : Nat → ℚ) (d : SMLib.Transition Env),
      tt.find? (fun t => t.cond (env2 0)) = some d →
      (SMLib.run_transitions tt env2 el2 1 = .ok d.target ↔
        (d.error = false ∨ el2 0 > SMLib.ERROR_TIME)) := by
  constructor
  · constructor
    · exact SMLib.run_transitionsAux_poll_low hscan _herr k0 0 none
        (fun i hi => by simpa using hlow i hi)
    · exact SMLib.run_transitionsAux_fires hscan k0 0 none
        (fun i hi => by simpa using hlow i hi) (by simpa using hhi)
  · intro env2 el2 d hfind
    unfold SMLib.run_transitions SMLib.run_transitionsAux
    rw [hfind]
    by_cases he : d.error = false
    · simp [he]
    · rw [Bool.not_eq_false] at he
      by_cases ht : el2 0 > SMLib.ERROR_TIME
      · simp [he, ht]
      · simp [he, ht, SMLib.run_transitionsAux]

/-- Transition entry used to witness the timeout behaviour: an error-path
transition whose guard is always true. -/
def c2Trans : SMLib.Transition PyModel.Inputs :=
  { target := "rec_error", inp := [""], cond := fun _ => true, error := true, msg := "" }

/-- Polling clock for the witness: poll `k` is measured 60k seconds after
the loop started, so the first poll past the 90-second budget is poll 2. -/
def c2Elapsed : Nat → ℚ := fun k => mkRat (60 * k : Nat) 1

/-- Witness for C2 at a concrete table, input stream and clock: with the
error-path guard true on every scan and polls measured at 0, 60 and 120
seconds, the loop is still polling after two iterations and fires at the
third, returning the error-path target. -/
theorem C2_error_path_timeout_witness :
    SMLib.run_transitions [c2Trans] (fun _ => envAllZero) c2Elapsed 2 =
        .error SMLib.RTError.fuelOut ∧
      SMLib.run_transitions [c2Trans] (fun _ => envAllZero) c2Elapsed 3 =
        .ok ("rec_error") :=
  (C2_error_path_timeout [c2Trans] c2Trans (fun _ => envAllZero) c2Elapsed 2
    (fun _ => rfl) rfl
    (fun k hk => by interval_cases k <;> decide)
    (by decide)).1

namespace SMLib

/-- The scan of lines 81-84 returns the transition at the first position
whose guard is true: if the guard at position `i` is true and every
earlier guard is false, `find?` yields exactly that entry. -/
theorem find_first_true {Env : Type} (e : Env) :
    ∀ (tt : List (Transition Env)) (i : Nat) (hi : i < tt.length),
      (tt.get ⟨i, hi⟩).cond e = true →
      (∀ j, ∀ hj : j < i, (tt.get ⟨j, hj.trans hi⟩).cond e = false) →
      tt.find? (fun t => t.cond e) = some (tt.get ⟨i, hi⟩) := by
  intro tt
  induction tt with
  | nil => intro i hi; exact absurd hi (by simp)
  | cons t ts ih =>
    intro i hi hcond hprev
    cases i with
    | zero =>
      simp only [List.get] at hcond ⊢
      exact List.find?_cons_of_pos _ hcond
    | succ n =>
      have h0 : t.cond e = false := hprev 0 (Nat.succ_pos n)
      rw [List.find?_cons_of_neg _ (by simp [h0])]
      exact ih n (Nat.lt_of_succ_lt_succ hi) hcond
        (fun j hj => hprev (j + 1) (Nat.succ_lt_succ hj))

end SMLib

namespace NZSF

/-- Input snapshot type for the engine-level embedding of the
fault_cleared table: every input it reads is a numeric PV reading, so a
name-to-rational snapshot suffices (the `.value` read of a connected PV
cannot fail and `==` on numbers is total). -/
abbrev EnvQ := String → ℚ

/-- fault_cleared_trans (nzsfRecovery.py lines 148-157): az_disassert on
`azDriveCond == 2`, then el_disassert on `elDriveCond == 2`, then the
always-true fallback to disable_tracking; none is an error path. -/
def fault_cleared_trans : List (SMLib.Transition EnvQ) :=
  [{ target := "az_disassert", inp := [PyModel.nmAzDriveCond],
     cond := fun i => decide (i PyModel.nmAzDriveCond = 2), error := false, msg := "" },
   { target := "el_disassert", inp := [PyModel.nmElDriveCond],
     cond := fun i => decide (i PyModel.nmElDriveCond = 2), error := false, msg := "" },
   { target := "disable_tracking", inp := [""],
     cond := fun _ => true, error := false, msg := "" }]

/-- The fault_cleared State object (built in the main block of
nzsfRecovery.py from the states list, with init_transitions applied). -/
def fault_cleared_state : SMLib.StateL EnvQ :=
  { name := "fault_cleared", handlerName := "fault_cleared_handler",
    tarray := fault_cleared_trans, startState := false, endState := false }

/-- Input snapshot in which both drive conditions read 2. -/
def envBothDrives : EnvQ := fun nm =>
  if nm = PyModel.nmAzDriveCond then 2
  else if nm = PyModel.nmElDriveCond then 2
  else 0

end NZSF

/-- C5: the scan takes the transitions in declared order and the first
one whose guard is true is the candidate (first conjunct, for every
table and snapshot); consequently, evaluating the initialised
fault_cleared table on a snapshot where azDriveCond and elDriveCond both
read 2 accepts az_disassert, declared before el_disassert, at the first
poll (second conjunct). -/
theorem C5_declared_order :
    (∀ (Env : Type) (e : Env) (tt : List (SMLib.Transition Env)) (i : Nat)
        (hi : i < tt.length),
      (tt.get ⟨i, hi⟩).cond e = true →
      (∀ j, ∀ hj : j < i, (tt.get ⟨j, hj.trans hi⟩).cond e = false) →
      tt.find? (fun t => t.cond e) = some (tt.get ⟨i, hi⟩)) ∧
    SMLib.run_transitions NZSF.fault_cleared_state.transitions
        (fun _ => NZSF.envBothDrives) (fun _ => 0) 1 =
      .ok ("az_disassert") :=
  ⟨fun _ => SMLib.find_first_true, rfl⟩

/-- Witness for C5's general conjunct: in the declared fault_cleared
table, on the snapshot where both drive conditions read 2, the guard at
position 0 is true (and there is no earlier one), so the scan returns
the az_disassert entry. -/
theorem C5_declared_order_witness :
    NZSF.fault_cleared_trans.find? (fun t => t.cond NZSF.envBothDrives) =
      some (NZSF.fault_cleared_trans.get ⟨0, by decide⟩) :=
  C5_declared_order.1 NZSF.EnvQ NZSF.envBothDrives NZSF.fault_cleared_trans 0
    (by decide) (by decide) (fun j hj => absurd hj (Nat.not_lt_zero j))

namespace SMLib

open PyModel

/-- Head of the evaluation trace of a run-loop iteration with fuel left:
the iteration first records the evaluation of the current state, whose
context prevState entry is the written value (or the caller's entry on
the first visit). -/
theorem runAux_head (m : StateMachine Inputs) (env : Nat → Nat → Inputs)
    (elapsed : Nat → Nat → ℚ) (pollFuel fuel v : Nat) (curr : StateL Inputs)
    (key sp : String) (written : Option String) :
    ((runAux m env elapsed pollFuel (fuel + 1) v curr key sp written).1).head? =
      some ⟨key, sp, writtenPrev env v written⟩ := by
  simp [runAux]

/-- Chain property of an evaluation trace: every evaluation after the
first saw, as the context's prevState entry, the raw name of the state
evaluated just before it. -/
def chainOk : List EvalRec → Prop
  | [] => True
  | [_] => True
  | a :: b :: rest => b.ctxPrev = PyVal.str a.raw ∧ chainOk (b :: rest)

/-- A chain extends through a cons when the tail's first entry (if any)
saw the new head's raw name. -/
theorem chainOk_cons (a : EvalRec) (t : List EvalRec) (h : chainOk t)
    (hh : ∀ r, t.head? = some r → r.ctxPrev = PyVal.str a.raw) :
    chainOk (a :: t) := by
  cases t with
  | nil => trivial
  | cons b rest => exact ⟨hh b rfl, h⟩

/-- Trace equation for a run-loop iteration that accepts a transition to
a registered non-terminal state: the iteration records the current
evaluation and continues with the written prevState advanced to the raw
name of the state it just left. -/
theorem runAux_fst_cont (m : StateMachine Inputs) (env : Nat → Nat → Inputs)
    (elapsed : Nat → Nat → ℚ) (pollFuel fuel v : Nat) (curr : StateL Inputs)
    (key sp : String) (written : Option String) (ns : String)
    (next : StateL Inputs)
    (hr : run_transitions curr.transitions (effInputs env v written)
        (elapsed v) pollFuel = .ok ns)
    (hl : lookupByKey m.states (pyUpper ns) = some next)
    (hcb : m.endStates.contains (pyUpper ns) = false) :
    (runAux m env elapsed pollFuel (fuel + 1) v curr key sp written).1 =
      ⟨key, sp, writtenPrev env v written⟩ ::
        (runAux m env elapsed pollFuel fuel (v + 1) next (pyUpper ns) ns
          (some sp)).1 := by
  simp only [runAux, hr, hl, hcb, Bool.false_eq_true, if_false]

/-- The run loop maintains the chain property: at every iteration it
writes the old `self.prevState` — the raw name of the state just
evaluated — into the context before the next evaluation, so each
evaluation after the first saw its predecessor's name. -/
theorem runAux_chain (m : StateMachine Inputs) (env : Nat → Nat → Inputs)
    (elapsed : Nat → Nat → ℚ) (pollFuel : Nat) :
    ∀ (fuel v : Nat) (curr : StateL Inputs) (key sp : String)
      (written : Option String),
      chainOk ((runAux m env elapsed pollFuel fuel v curr key sp written).1) := by
  intro fuel
  induction fuel with
  | zero =>
    intro v curr key sp written
    simp [runAux, chainOk]
  | succ f ih =>
    intro v curr key sp written
    cases hr : run_transitions curr.transitions (effInputs env v written)
        (elapsed v) pollFuel with
    | error e =>
      cases e <;> simp [runAux, hr, chainOk]
    | ok ns =>
      cases hl : lookupByKey m.states (pyUpper ns) with
      | none => simp [runAux, hr, hl, chainOk]
      | some next =>
        by_cases hc : (pyUpper ns) ∈ m.endStates
        · simp [runAux, hr, hl, hc, chainOk]
        · have hcb : m.endStates.contains (pyUpper ns) = false := by
            simpa using hc
          rw [runAux_fst_cont m env elapsed pollFuel f v curr key sp written
            ns next hr hl hcb]
          cases f with
          | zero => simp [runAux, chainOk]
          | succ f2 =>
            apply chainOk_cons _ _ (ih (v + 1) next (pyUpper ns) ns (some sp))
            intro r hrhead
            rw [runAux_head] at hrhead
            cases hrhead
            rfl

end SMLib

/-- Caller-supplied input snapshot of nzsfRecovery.py: the prevState
entry is initialised to the empty string (line 34), every other point is
a PV handle (reading 0 here). -/
def envInitial : PyModel.Inputs := fun nm =>
  if nm = PyModel.nmPrevState then PyModel.PyVal.str ("") else PyModel.PyVal.pv 0

/-- Always-true non-error transition to the terminal state done. -/
def toDone : SMLib.Transition PyModel.Inputs :=
  { target := "done", inp := [""], cond := fun _ => true, error := false, msg := "" }

/-- Start state of the two-state witness machine. -/
def aStart : SMLib.StateL PyModel.Inputs :=
  { name := "a", handlerName := "a_handler", tarray := [toDone],
    startState := true, endState := false }

/-- Terminal state of the two-state witness machine. -/
def doneEnd : SMLib.StateL PyModel.Inputs :=
  { name := "done", handlerName := "done_handler", tarray := [],
    startState := false, endState := true }

/-- Two-state machine: start a, one always-true transition to the
terminal done. -/
def m9 : SMLib.StateMachine PyModel.Inputs :=
  { states := [("A", aStart), ("DONE", doneEnd)], startState := some ("A"),
    endStates := ["DONE"], prevState := "" }

/-- Start handler of the two-state nonZeroSpeedSM machine: a state
function returning the next state name. -/
def hStart : SM2.Handler Unit := fun ctx => (some ("done"), ctx)

/-- Terminal action of the two-state nonZeroSpeedSM machine: returns
None, as the terminal action functions of nonZeroSpeedSM.py do. -/
def hDone : SM2.Handler Unit := fun ctx => (none, ctx)

/-- Two-state machine for the nonZeroSpeedSM engine. -/
def m2c1 : SM2.Machine Unit :=
  { handlers := [("A", hStart), ("DONE", hDone)], startState := some ("A"),
    endStates := ["DONE"] }

/-- C1: the claim states that `run` executes each visited state's handler
once per visit and always ends by invoking a terminal state's handler
exactly once.  In StateMachineLib.py both `run_handler` call sites
(lines 127 and 134) are commented out, so the run invokes no handler at
all: on the two-state machine the embedded run evaluates the start
state's table, ends on the terminal DONE, and its handler-invocation
list is empty (first conjunct).  The earlier engine of nonZeroSpeedSM.py
does behave as the claim says: its run invokes the start state's
function and then the terminal handler exactly once, last (second
conjunct). -/
theorem C1_terminal_handler_not_invoked :
    SMLib.run m9 (fun _ _ => envInitial) (fun _ _ => 0) 1 2 =
      ([{ key := "A", raw := "A", ctxPrev := PyModel.PyVal.str ("") }], [],
        .ok ("DONE")) ∧
    SM2.run m2c1 { data := (), prevState := "" } 3 =
      (["A", "DONE"], .ok ("DONE")) :=
  ⟨rfl, rfl⟩

/-- C6 (amended): whenever `run` evaluates a state's transition table
other than the first one of the run, the synthetic prevState entry of
the context equals the raw name of the state visited just before it —
maintained because the loop writes `self.prevState` into the context and
then advances `self.prevState` to the new state name (line 130,
`self.prevState = newState`). -/
theorem C6_prev_state_invariant (m : SMLib.StateMachine PyModel.Inputs)
    (env : Nat → Nat → PyModel.Inputs) (elapsed : Nat → Nat → ℚ)
    (pollFuel fuel : Nat) :
    SMLib.chainOk ((SMLib.run m env elapsed pollFuel fuel).1) := by
  unfold SMLib.run
  cases hs : m.startState with
  | none => simp [SMLib.chainOk]
  | some sk =>
    by_cases he : m.endStates.isEmpty
    · simp [he, SMLib.chainOk]
    · cases hl : SMLib.lookupByKey m.states sk with
      | none => simp [he, hl, SMLib.chainOk]
      | some st =>
        simpa [he, hl] using
          SMLib.runAux_chain m env elapsed pollFuel fuel 0 st sk sk none

/-- Four-state linear machine for the spec-model comparison:
a to b to c to the terminal d. -/
def specChain : SpecModel.SpecMachine :=
  { nextOf := fun nm =>
      if nm = "A" then "B" else if nm = "B" then "C" else "D",
    startState := "A", endStates := ["D"] }

/-- C6, counterexample to the claim as stated: the claim attributes the
prevState invariant to the spec's run-loop steps "write previousState
into the context, then set previousState = current, current = next".
Those steps, transcribed verbatim in `SpecModel.specRun`, do not
maintain the invariant: on the four-state chain the third evaluated
state C sees prevState = A although the state visited just before it was
B.  (The source instead sets `self.prevState = newState`, line 130, and
does maintain the invariant.) -/
theorem C6_counterexample :
    SpecModel.specRun specChain 10 =
      [("A", none), ("B", some ("A")), ("C", some ("A"))] ∧
    ("A" : String) ≠ "B" :=
  ⟨rfl, by decide⟩

/-- A single end state, not flagged as a start state. -/
def aEndOnly : SMLib.StateL PyModel.Inputs :=
  { name := "a", handlerName := "a_handler", tarray := [],
    startState := false, endState := true }

/-- The machine obtained by registering only `aEndOnly` on a fresh
StateMachine: one end state, no start state. -/
def m7 : SMLib.StateMachine PyModel.Inputs :=
  { states := [("A", aEndOnly)], startState := none, endStates := ["A"],
    prevState := "" }

/-- Machine with a start state but no end states. -/
def mNoEnd : SMLib.StateMachine PyModel.Inputs :=
  { states := [("A", aStart)], startState := some ("A"), endStates := [],
    prevState := "" }

/-- C7, counterexample to the claim as stated: the claim says the
zero-start-state configuration error is raised before `run` is invoked.
It is not: registering a machine with zero start states succeeds without
any error (add_state only ever raises for a second start state), and the
InitializationError for the missing start state is raised by `run`
itself — at its beginning, before the loop, but only once `run` has been
invoked. -/
theorem C7_counterexample :
    SMLib.add_state SMLib.emptySM aEndOnly = .ok m7 ∧
    SMLib.run m7 (fun _ _ => envInitial) (fun _ _ => 0) 1 1 =
      ([], [], .error SMLib.SMError.noStart) :=
  ⟨rfl, rfl⟩

/-- C7 (amended): registering a second start state fails with the
InitializationError at `add_state`, before `run`; a machine with zero
start states or zero end states fails with the corresponding
InitializationError when `run` is invoked, before the run loop performs
any evaluation (the returned trace is empty); each of these aborts the
process (`exit(0)` at StateMachineLib.py lines 110 and 123). -/
theorem C7_config_errors :
    (∀ (m : SMLib.StateMachine PyModel.Inputs) (s : SMLib.StateL PyModel.Inputs),
      s.startState = true → m.startState.isSome = true →
      SMLib.add_state m s = .error SMLib.SMError.moreThanOneStart) ∧
    (∀ (m : SMLib.StateMachine PyModel.Inputs) (env : Nat → Nat → PyModel.Inputs)
        (elapsed : Nat → Nat → ℚ) (pollFuel fuel : Nat),
      m.startState = none →
      SMLib.run m env elapsed pollFuel fuel =
        ([], [], .error SMLib.SMError.noStart)) ∧
    (∀ (m : SMLib.StateMachine PyModel.Inputs) (env : Nat → Nat → PyModel.Inputs)
        (elapsed : Nat → Nat → ℚ) (pollFuel fuel : Nat) (sk : String),
      m.startState = some sk → m.endStates = [] →
      SMLib.run m env elapsed pollFuel fuel =
        ([], [], .error SMLib.SMError.noEnd)) := by
  refine ⟨fun m s hs hsome => ?_, fun m env elapsed pollFuel fuel h => ?_,
    fun m env elapsed pollFuel fuel sk hsk hend => ?_⟩
  · simp [SMLib.add_state, hs, hsome]
  · simp [SMLib.run, h]
  · simp [SMLib.run, hsk, hend]

/-- Witness for C7 (amended): a second start state is rejected at
registration; the zero-start machine and the zero-end machine are
rejected at the start of `run` with an empty evaluation trace. -/
theorem C7_config_errors_witness :
    SMLib.add_state m9 aStart = .error SMLib.SMError.moreThanOneStart ∧
    SMLib.run m7 (fun _ _ => envInitial) (fun _ _ => 0) 1 2 =
      ([], [], .error SMLib.SMError.noStart) ∧
    SMLib.run mNoEnd (fun _ _ => envInitial) (fun _ _ => 0) 1 1 =
      ([], [], .error SMLib.SMError.noEnd) :=
  ⟨C7_config_errors.1 m9 aStart rfl rfl,
    C7_config_errors.2.1 m7 (fun _ _ => envInitial) (fun _ _ => 0) 1 2 rfl,
    C7_config_errors.2.2 mNoEnd (fun _ _ => envInitial) (fun _ _ => 0) 1 1
      "A" rfl rfl⟩

/-- C9: the first transition-table evaluation of a run — the start
state's — sees, as the context's synthetic prevState entry, exactly the
caller-supplied value of that entry: the run loop writes previousState
into the context (line 129) only after the first transition has been
chosen. -/
theorem C9_start_sees_caller_prev (m : SMLib.StateMachine PyModel.Inputs)
    (env : Nat → Nat → PyModel.Inputs) (elapsed : Nat → Nat → ℚ)
    (pollFuel fuel : Nat) (sk : String) (st : SMLib.StateL PyModel.Inputs)
    (hs : m.startState = some sk) (hend : m.endStates.isEmpty = false)
    (hl : SMLib.lookupByKey m.states sk = some st) :
    (((SMLib.run m env elapsed pollFuel (fuel + 1)).1).head?).map
        SMLib.EvalRec.ctxPrev =
      some (env 0 0 PyModel.nmPrevState) := by
  simp [SMLib.run, hs, hend, hl, SMLib.runAux_head, SMLib.writtenPrev]

/-- Witness for C9 on the two-state machine with the recovery machine's
initial context (prevState initialised to the empty string,
nzsfRecovery.py line 34): the start state's evaluation sees the empty
string, which is not the start state's name. -/
theorem C9_start_sees_caller_prev_witness :
    (((SMLib.run m9 (fun _ _ => envInitial) (fun _ _ => 0) 1 2).1).head?).map
        SMLib.EvalRec.ctxPrev =
      some (PyModel.PyVal.str ("")) ∧
    PyModel.PyVal.str ("") ≠ PyModel.PyVal.str ("A") :=
  ⟨C9_start_sees_caller_prev m9 (fun _ _ => envInitial) (fun _ _ => 0) 1 1
      "A" aStart rfl rfl rfl,
    by decide⟩

/-- C10: the run loop checks the terminal condition only on the state
name produced by a transition (line 132), never on the initial state:
whenever the configuration checks pass, the first thing the loop does is
evaluate the start state's transition table, so the evaluation trace is
nonempty and begins with the start state — with no hypothesis on whether
the start state is itself terminal. -/
theorem C10_start_table_always_evaluated (m : SMLib.StateMachine PyModel.Inputs)
    (env : Nat → Nat → PyModel.Inputs) (elapsed : Nat → Nat → ℚ)
    (pollFuel fuel : Nat) (sk : String) (st : SMLib.StateL PyModel.Inputs)
    (hs : m.startState = some sk) (hend : m.endStates.isEmpty = false)
    (hl : SMLib.lookupByKey m.states sk = some st) :
    (SMLib.run m env elapsed pollFuel (fuel + 1)).1 ≠ [] ∧
    (((SMLib.run m env elapsed pollFuel (fuel + 1)).1).head?).map
        SMLib.EvalRec.key =
      some sk := by
  constructor
  · simp [SMLib.run, hs, hend, hl, SMLib.runAux]
  · simp [SMLib.run, hs, hend, hl, SMLib.runAux_head]

/-- Start state that is also terminal, with the empty transition table an
end state gets from `init_transitions`. -/
def aStartEnd : SMLib.StateL PyModel.Inputs :=
  { name := "a", handlerName := "a_handler", tarray := [],
    startState := true, endState := true }

/-- Machine whose start state is also a terminal state. -/
def m10 : SMLib.StateMachine PyModel.Inputs :=
  { states := [("A", aStartEnd)], startState := some ("A"),
    endStates := ["A"], prevState := "" }

/-- Witness for C10 on a machine whose start state is itself terminal:
the run still evaluates the start state's transition table first (the
trace is nonempty and begins with the start state) rather than stopping
on the initial state. -/
theorem C10_start_table_always_evaluated_witness :
    (SMLib.run m10 (fun _ _ => envInitial) (fun _ _ => 0) 1 1).1 ≠ [] ∧
    (((SMLib.run m10 (fun _ _ => envInitial) (fun _ _ => 0) 1 1).1).head?).map
        SMLib.EvalRec.key =
      some ("A") :=
  C10_start_table_always_evaluated m10 (fun _ _ => envInitial) (fun _ _ => 0)
    1 0 "A" aStartEnd rfl rfl rfl
